import Mathlib

/-!
Verification of the state-mutation safety layer of an account-based ledger
program suite (Anchor/Solana example programs).

Each program is shallowly embedded: u64 values become natural numbers with
explicit bounds checks mirroring the checked arithmetic of the source
(checked_add, checked_sub, checked_mul on u64), fallible instruction
handlers become functions into Except, and the external token-transfer
call (a CPI) is modelled by a boolean oracle saying whether the external
call would succeed.  Public keys are modelled as natural numbers with
decidable equality.

An Anchor instruction that returns an error aborts the enclosing
transaction, so none of the in-memory account mutations persist; the
helper commit below applies exactly that all-or-nothing persistence
model: the committed state after a handler run is the new state on
success and the untouched initial state on error.
-/

/-- Largest value representable in a u64. -/
def U64_MAX : Nat := 2 ^ 64 - 1

/-- Embedding of u64 checked_add: some of the sum when it fits, none on overflow. -/
def checked_add (a b : Nat) : Option Nat :=
  if a + b ≤ U64_MAX then some (a + b) else none

/-- Embedding of u64 checked_sub: some of the difference when b ≤ a, none on underflow. -/
def checked_sub (a b : Nat) : Option Nat :=
  if b ≤ a then some (a - b) else none

/-- Embedding of u64 checked_mul: some of the product when it fits, none on overflow. -/
def checked_mul (a b : Nat) : Option Nat :=
  if a * b ≤ U64_MAX then some (a * b) else none

/-- Solana public key, modelled as a natural number with decidable equality. -/
abbrev Pubkey := Nat

/-- Persistence model of the Anchor runtime: a handler that returns an
error aborts the transaction, so the committed state is the initial state;
a handler that returns ok commits the state it produced. -/
def commit {ε σ : Type} (s : σ) : Except ε σ → σ
  | Except.ok s2 => s2
  | Except.error _ => s

namespace IncorrectAuthority

/-- Account type UserAccount of the incorrect_authority_check program:
a stored owner key and a u64 balance. -/
structure UserAccount where
  owner : Pubkey
  balance : Nat
deriving DecidableEq, Repr

/-- Error enum CustomError of the incorrect_authority_check secure program. -/
inductive CustomError
  | Unauthorized
  | InsufficientFunds
deriving DecidableEq, Repr

/-- Instruction-level error: either the Anchor Signer constraint on the
authority account failed before the handler body ran, or the handler
returned one of its CustomError values. -/
inductive Err
  | ConstraintSigner
  | Custom (e : CustomError)
deriving DecidableEq, Repr

/-- Authorization errors in the sense of the spec taxonomy:
MissingAuthentication (the Anchor signer constraint) and OwnerMismatch
(the Unauthorized custom error). -/
def Err.isAuthorization : Err → Bool
  | Err.ConstraintSigner => true
  | Err.Custom CustomError.Unauthorized => true
  | Err.Custom CustomError.InsufficientFunds => false

/-- Embedding of withdraw_safe of the incorrect_authority_check secure
program.  The authority account is an Anchor Signer, so the instruction
fails before the handler body runs unless the presented authority signed
the transaction; the handler then requires the authority key to equal the
stored owner (CustomError Unauthorized otherwise), requires
balance ≥ amount (CustomError InsufficientFunds otherwise), and debits
the balance. -/
def withdraw_safe (authority_is_signer : Bool) (authority_key : Pubkey)
    (account : UserAccount) (amount : Nat) : Except Err UserAccount :=
  if ¬ authority_is_signer then Except.error Err.ConstraintSigner
  else if authority_key ≠ account.owner then
    Except.error (Err.Custom CustomError.Unauthorized)
  else if account.balance < amount then
    Except.error (Err.Custom CustomError.InsufficientFunds)
  else Except.ok { account with balance := account.balance - amount }

end IncorrectAuthority

namespace UnsafeArithmetic

/-- Account type Pool of the unsafe_arithmetic program: four u64 totals. -/
structure Pool where
  total_deposited : Nat
  total_available : Nat
  total_rewards : Nat
  total_minted : Nat
deriving DecidableEq, Repr

/-- Error enum CustomError of the unsafe_arithmetic secure program. -/
inductive CustomError
  | ArithmeticOverflow
  | ArithmeticUnderflow
  | InvalidInterestRate
deriving DecidableEq, Repr

/-- Reward rate constant used by deposit_safe (let reward_rate = 100u64). -/
def reward_rate : Nat := 100

/-- Embedding of deposit_safe of the unsafe_arithmetic secure program:
total_deposited is increased by amount via checked_add, rewards are
amount times reward_rate via checked_mul, total_rewards is increased by
rewards via checked_add; every failing step propagates
ArithmeticOverflow.  The in-memory mutation order of the source is kept
by threading the intermediate pool states. -/
def deposit_safe (pool : Pool) (amount : Nat) : Except CustomError Pool :=
  match checked_add pool.total_deposited amount with
  | none => Except.error CustomError.ArithmeticOverflow
  | some td =>
    let pool := { pool with total_deposited := td }
    match checked_mul amount reward_rate with
    | none => Except.error CustomError.ArithmeticOverflow
    | some rewards =>
      match checked_add pool.total_rewards rewards with
      | none => Except.error CustomError.ArithmeticOverflow
      | some tr => Except.ok { pool with total_rewards := tr }

/-- Embedding of withdraw_safe of the unsafe_arithmetic secure program:
total_available is decreased by amount via checked_sub, failing with
ArithmeticUnderflow. -/
def withdraw_safe (pool : Pool) (amount : Nat) : Except CustomError Pool :=
  match checked_sub pool.total_available amount with
  | none => Except.error CustomError.ArithmeticUnderflow
  | some ta => Except.ok { pool with total_available := ta }

end UnsafeArithmetic

namespace Reentrancy

/-- Account type PoolSafe of the reentrancy_risk secure program. -/
structure PoolSafe where
  total_deposited : Nat
  total_available : Nat
  locked : Bool
deriving DecidableEq, Repr

/-- Account type UserDeposit of the reentrancy_risk secure program. -/
structure UserDeposit where
  owner : Pubkey
  balance : Nat
deriving DecidableEq, Repr

/-- Error enum CustomError of the reentrancy_risk secure program. -/
inductive CustomError
  | InsufficientBalance
  | InsufficientPoolFunds
  | ArithmeticUnderflow
  | ArithmeticOverflow
  | PoolLocked
  | InvalidAmount
deriving DecidableEq, Repr

/-- Instruction-level error: a CustomError raised by the handler, or the
error propagated from the external token transfer CPI. -/
inductive Err
  | Custom (e : CustomError)
  | TransferFailed
deriving DecidableEq, Repr

/-- Observable events of a withdraw_safe run, in source order: setting
the lock, the three balance debits, issuing the transfer CPI, clearing
the lock. -/
inductive Event
  | set_lock
  | debit_user
  | debit_deposited
  | debit_available
  | cpi_transfer
  | clear_lock
deriving DecidableEq, Repr

/-- Embedding of withdraw_safe of the reentrancy_risk secure program,
instrumented with the list of events it performs, in the order the
source performs them.  Checks (require balance, require pool funds,
require not locked) come first and perform no event; then the source
sets pool.locked to true, debits user.balance, pool.total_deposited and
pool.total_available through checked_sub, then issues the token transfer
CPI (outcome given by the transfer_ok oracle; the event is recorded
whether or not the call succeeds), and clears the lock only on the
success path after the CPI returned ok. -/
def withdraw_safe_run (pool : PoolSafe) (user : UserDeposit) (amount : Nat)
    (transfer_ok : Bool) :
    Except Err (PoolSafe × UserDeposit) × List Event :=
  if user.balance < amount then
    (Except.error (Err.Custom CustomError.InsufficientBalance), [])
  else if pool.total_available < amount then
    (Except.error (Err.Custom CustomError.InsufficientPoolFunds), [])
  else if pool.locked then
    (Except.error (Err.Custom CustomError.PoolLocked), [])
  else
    let pool := { pool with locked := true }
    match checked_sub user.balance amount with
    | none => (Except.error (Err.Custom CustomError.ArithmeticUnderflow),
        [Event.set_lock])
    | some ub =>
      let user := { user with balance := ub }
      match checked_sub pool.total_deposited amount with
      | none => (Except.error (Err.Custom CustomError.ArithmeticUnderflow),
          [Event.set_lock, Event.debit_user])
      | some td =>
        let pool := { pool with total_deposited := td }
        match checked_sub pool.total_available amount with
        | none => (Except.error (Err.Custom CustomError.ArithmeticUnderflow),
            [Event.set_lock, Event.debit_user, Event.debit_deposited])
        | some ta =>
          let pool := { pool with total_available := ta }
          if transfer_ok then
            let pool := { pool with locked := false }
            (Except.ok (pool, user),
              [Event.set_lock, Event.debit_user, Event.debit_deposited,
               Event.debit_available, Event.cpi_transfer, Event.clear_lock])
          else
            (Except.error Err.TransferFailed,
              [Event.set_lock, Event.debit_user, Event.debit_deposited,
               Event.debit_available, Event.cpi_transfer])

/-- Result of a withdraw_safe run. -/
def withdraw_safe (pool : PoolSafe) (user : UserDeposit) (amount : Nat)
    (transfer_ok : Bool) : Except Err (PoolSafe × UserDeposit) :=
  (withdraw_safe_run pool user amount transfer_ok).1

/-- Event trace of a withdraw_safe run. -/
def withdraw_trace (pool : PoolSafe) (user : UserDeposit) (amount : Nat)
    (transfer_ok : Bool) : List Event :=
  (withdraw_safe_run pool user amount transfer_ok).2

/-- Embedding of deposit_safe of the reentrancy_risk secure program:
requires amount > 0 (InvalidAmount otherwise) and a user token balance
covering the amount (InsufficientBalance otherwise), then credits
user.balance, pool.total_deposited and pool.total_available through
checked_add, then issues the token transfer CPI whose outcome is given
by the transfer_ok oracle. -/
def deposit_safe (pool : PoolSafe) (user : UserDeposit)
    (user_token_amount : Nat) (amount : Nat) (transfer_ok : Bool) :
    Except Err (PoolSafe × UserDeposit) :=
  if ¬ amount > 0 then Except.error (Err.Custom CustomError.InvalidAmount)
  else if user_token_amount < amount then
    Except.error (Err.Custom CustomError.InsufficientBalance)
  else
    match checked_add user.balance amount with
    | none => Except.error (Err.Custom CustomError.ArithmeticOverflow)
    | some ub =>
      let user := { user with balance := ub }
      match checked_add pool.total_deposited amount with
      | none => Except.error (Err.Custom CustomError.ArithmeticOverflow)
      | some td =>
        let pool := { pool with total_deposited := td }
        match checked_add pool.total_available amount with
        | none => Except.error (Err.Custom CustomError.ArithmeticOverflow)
        | some ta =>
          let pool := { pool with total_available := ta }
          if transfer_ok then Except.ok (pool, user)
          else Except.error Err.TransferFailed

end Reentrancy

namespace CpiMisuse

/-- Trusted program id constant of the cpi_misuse secure program.  The
source declares it as a fixed compile-time constant (a placeholder key);
its concrete value is irrelevant to the control flow, which only
compares keys against it. -/
def TRUSTED_PROGRAM_ID : Pubkey := 0

/-- Error enum CustomError of the cpi_misuse secure program. -/
inductive CustomError
  | InvalidTokenProgram
  | UntrustedProgram
  | WrongAccountOwner
  | CpiFailed
  | InvalidPdaSigner
deriving DecidableEq, Repr

/-- Embedding of safe_delegate_call of the cpi_misuse secure program,
instrumented with a boolean recording whether the external invoke was
issued.  The handler requires the target program key to equal
TRUSTED_PROGRAM_ID (UntrustedProgram otherwise), requires the owner of
the user_data account to equal TRUSTED_PROGRAM_ID (WrongAccountOwner
otherwise), then issues the invoke, whose outcome is given by the
cpi_ok oracle, and maps an invoke failure to CpiFailed and an invoke
success to ok. -/
def safe_delegate_call_run (target_program_key : Pubkey)
    (user_data_owner : Pubkey) (cpi_ok : Bool) :
    Except CustomError Unit × Bool :=
  if target_program_key ≠ TRUSTED_PROGRAM_ID then
    (Except.error CustomError.UntrustedProgram, false)
  else if user_data_owner ≠ TRUSTED_PROGRAM_ID then
    (Except.error CustomError.WrongAccountOwner, false)
  else if cpi_ok then (Except.ok (), true)
  else (Except.error CustomError.CpiFailed, true)

/-- Result of a safe_delegate_call run. -/
def safe_delegate_call (target_program_key : Pubkey)
    (user_data_owner : Pubkey) (cpi_ok : Bool) : Except CustomError Unit :=
  (safe_delegate_call_run target_program_key user_data_owner cpi_ok).1

/-- Whether a safe_delegate_call run issued the external invoke. -/
def safe_delegate_call_invoked (target_program_key : Pubkey)
    (user_data_owner : Pubkey) (cpi_ok : Bool) : Bool :=
  (safe_delegate_call_run target_program_key user_data_owner cpi_ok).2

end CpiMisuse

/-- Normal form of a withdraw_safe run: the branch conditions of the
source spelled out as nested conditionals on the initial state. -/
theorem Reentrancy.withdraw_safe_run_eq (pool : Reentrancy.PoolSafe)
    (user : Reentrancy.UserDeposit) (amount : Nat) (t : Bool) :
    Reentrancy.withdraw_safe_run pool user amount t =
      if user.balance < amount then
        (Except.error (Reentrancy.Err.Custom
          Reentrancy.CustomError.InsufficientBalance), [])
      else if pool.total_available < amount then
        (Except.error (Reentrancy.Err.Custom
          Reentrancy.CustomError.InsufficientPoolFunds), [])
      else if pool.locked then
        (Except.error (Reentrancy.Err.Custom
          Reentrancy.CustomError.PoolLocked), [])
      else if pool.total_deposited < amount then
        (Except.error (Reentrancy.Err.Custom
          Reentrancy.CustomError.ArithmeticUnderflow),
         [Reentrancy.Event.set_lock, Reentrancy.Event.debit_user])
      else if t then
        (Except.ok
          ({ total_deposited := pool.total_deposited - amount,
             total_available := pool.total_available - amount,
             locked := false },
           { user with balance := user.balance - amount }),
         [Reentrancy.Event.set_lock, Reentrancy.Event.debit_user,
          Reentrancy.Event.debit_deposited, Reentrancy.Event.debit_available,
          Reentrancy.Event.cpi_transfer, Reentrancy.Event.clear_lock])
      else
        (Except.error Reentrancy.Err.TransferFailed,
         [Reentrancy.Event.set_lock, Reentrancy.Event.debit_user,
          Reentrancy.Event.debit_deposited, Reentrancy.Event.debit_available,
          Reentrancy.Event.cpi_transfer]) := by
  unfold Reentrancy.withdraw_safe_run
  by_cases h1 : user.balance < amount
  · simp [h1]
  · by_cases h2 : pool.total_available < amount
    · simp [h1, h2]
    · by_cases h3 : pool.locked
      · simp [h1, h2, h3]
      · by_cases h4 : pool.total_deposited < amount
        · simp [h1, h2, h3, h4, checked_sub, Nat.not_lt.mp h1,
            show ¬ amount ≤ pool.total_deposited from Nat.not_le.mpr h4]
        · by_cases h5 : t <;>
            simp [h1, h2, h3, h4, h5, checked_sub, Nat.not_lt.mp h1,
              Nat.not_lt.mp h2, Nat.not_lt.mp h4]

/-- C1: for every delegated call issued through safe_delegate_call, if the
external call returns an error the operation returns CpiFailed and never
ok; ok is returned only when the external call completed without error. -/
theorem C1_cpi_failure_propagates (t o : Pubkey) (c : Bool) :
    (CpiMisuse.safe_delegate_call t o c = Except.ok () → c = true) ∧
    (t = CpiMisuse.TRUSTED_PROGRAM_ID → o = CpiMisuse.TRUSTED_PROGRAM_ID →
      c = false →
      CpiMisuse.safe_delegate_call t o c =
        Except.error CpiMisuse.CustomError.CpiFailed) := by
  unfold CpiMisuse.safe_delegate_call CpiMisuse.safe_delegate_call_run
  constructor
  · intro h
    by_cases h1 : t = CpiMisuse.TRUSTED_PROGRAM_ID <;>
      by_cases h2 : o = CpiMisuse.TRUSTED_PROGRAM_ID <;>
        by_cases h3 : c <;> simp_all
  · intro h1 h2 h3
    simp [h1, h2, h3]

/-- C1 witness: with both trust checks passing and a failing external
call, safe_delegate_call returns CpiFailed. -/
theorem C1_cpi_failure_propagates_witness :
    CpiMisuse.safe_delegate_call 0 0 false =
      Except.error CpiMisuse.CustomError.CpiFailed :=
  (C1_cpi_failure_propagates 0 0 false).2 rfl rfl rfl

/-- C3: safe_delegate_call succeeds only if the target program key equals
the trusted id and the user_data owner equals the trusted id; otherwise
the external invoke is never issued and UntrustedProgram, respectively
WrongAccountOwner, is returned. -/
theorem C3_trust_gate (t o : Pubkey) (c : Bool) :
    (∀ u, CpiMisuse.safe_delegate_call t o c = Except.ok u →
      t = CpiMisuse.TRUSTED_PROGRAM_ID ∧ o = CpiMisuse.TRUSTED_PROGRAM_ID) ∧
    (t ≠ CpiMisuse.TRUSTED_PROGRAM_ID →
      CpiMisuse.safe_delegate_call t o c =
        Except.error CpiMisuse.CustomError.UntrustedProgram ∧
      CpiMisuse.safe_delegate_call_invoked t o c = false) ∧
    (t = CpiMisuse.TRUSTED_PROGRAM_ID → o ≠ CpiMisuse.TRUSTED_PROGRAM_ID →
      CpiMisuse.safe_delegate_call t o c =
        Except.error CpiMisuse.CustomError.WrongAccountOwner ∧
      CpiMisuse.safe_delegate_call_invoked t o c = false) := by
  unfold CpiMisuse.safe_delegate_call CpiMisuse.safe_delegate_call_invoked
    CpiMisuse.safe_delegate_call_run
  refine ⟨?_, ?_, ?_⟩
  · intro u h
    by_cases h1 : t = CpiMisuse.TRUSTED_PROGRAM_ID <;>
      by_cases h2 : o = CpiMisuse.TRUSTED_PROGRAM_ID <;>
        by_cases h3 : c <;> simp_all
  · intro h1
    simp [h1]
  · intro h1 h2
    simp [h1, h2]

/-- C3 witness: an untrusted target key is rejected with UntrustedProgram
and the invoke is not issued. -/
theorem C3_trust_gate_witness :
    CpiMisuse.safe_delegate_call 7 0 true =
      Except.error CpiMisuse.CustomError.UntrustedProgram ∧
    CpiMisuse.safe_delegate_call_invoked 7 0 true = false :=
  (C3_trust_gate 7 0 true).2.1 (by decide)

/-- C2: withdraw_safe of the incorrect_authority_check program succeeds
only if the presented authority is a signer whose key equals the stored
owner; otherwise an authorization error (the signer constraint or
Unauthorized) results and the committed balance is unchanged. -/
theorem C2_withdraw_authorization (s : Bool) (k : Pubkey)
    (acct : IncorrectAuthority.UserAccount) (amount : Nat) :
    (∀ acct2, IncorrectAuthority.withdraw_safe s k acct amount =
        Except.ok acct2 → s = true ∧ k = acct.owner) ∧
    (s = false ∨ k ≠ acct.owner →
      ∃ e, IncorrectAuthority.withdraw_safe s k acct amount =
          Except.error e ∧
        e.isAuthorization = true ∧
        commit acct (IncorrectAuthority.withdraw_safe s k acct amount) =
          acct) := by
  unfold IncorrectAuthority.withdraw_safe
  constructor
  · intro acct2 h
    by_cases h1 : s <;> by_cases h2 : k = acct.owner <;>
      by_cases h3 : acct.balance < amount <;> simp_all
  · intro h
    rcases h with h | h
    · subst h
      exact ⟨IncorrectAuthority.Err.ConstraintSigner, by simp, rfl, rfl⟩
    · by_cases h1 : s
      · refine ⟨IncorrectAuthority.Err.Custom
          IncorrectAuthority.CustomError.Unauthorized, ?_, rfl, ?_⟩
        · simp [h1, h]
        · simp [commit, h1, h]
      · refine ⟨IncorrectAuthority.Err.ConstraintSigner, ?_, rfl, ?_⟩
        · simp [h1]
        · simp [commit, h1]

/-- C2 witness: a non-signer caller is rejected with an authorization
error and the committed account is unchanged. -/
theorem C2_withdraw_authorization_witness :
    ∃ e, IncorrectAuthority.withdraw_safe false 2 ⟨1, 10⟩ 5 =
        Except.error e ∧
      e.isAuthorization = true ∧
      commit ⟨1, 10⟩ (IncorrectAuthority.withdraw_safe false 2 ⟨1, 10⟩ 5) =
        ⟨1, 10⟩ :=
  (C2_withdraw_authorization false 2 ⟨1, 10⟩ 5).2 (Or.inl rfl)

/-- C9: scenario on the incorrect_authority_check program: owner key 1,
other key 2, balance 100; the owner withdraws 60 and gets balance 40;
a non-owner withdraw of 60 fails with Unauthorized (the OwnerMismatch of
the spec) leaving 40; an owner withdraw of 50 fails with
InsufficientFunds (the Underflow of the spec) leaving 40. -/
theorem C9_withdraw_scenario :
    IncorrectAuthority.withdraw_safe true 1 ⟨1, 100⟩ 60 =
      Except.ok ⟨1, 40⟩ ∧
    IncorrectAuthority.withdraw_safe true 2 ⟨1, 40⟩ 60 =
      Except.error (IncorrectAuthority.Err.Custom
        IncorrectAuthority.CustomError.Unauthorized) ∧
    commit ⟨1, 40⟩ (IncorrectAuthority.withdraw_safe true 2 ⟨1, 40⟩ 60) =
      ⟨1, 40⟩ ∧
    IncorrectAuthority.withdraw_safe true 1 ⟨1, 40⟩ 50 =
      Except.error (IncorrectAuthority.Err.Custom
        IncorrectAuthority.CustomError.InsufficientFunds) ∧
    commit ⟨1, 40⟩ (IncorrectAuthority.withdraw_safe true 1 ⟨1, 40⟩ 50) =
      ⟨1, 40⟩ := by
  refine ⟨rfl, rfl, rfl, rfl, rfl⟩

/-- Normal form of deposit_safe of the unsafe_arithmetic program: the
three checked steps spelled out as nested conditionals. -/
theorem UnsafeArithmetic.deposit_safe_eq (pool : UnsafeArithmetic.Pool)
    (amount : Nat) :
    UnsafeArithmetic.deposit_safe pool amount =
      if pool.total_deposited + amount ≤ U64_MAX then
        if amount * UnsafeArithmetic.reward_rate ≤ U64_MAX then
          if pool.total_rewards + amount * UnsafeArithmetic.reward_rate ≤
              U64_MAX then
            Except.ok { pool with
              total_deposited := pool.total_deposited + amount,
              total_rewards :=
                pool.total_rewards + amount * UnsafeArithmetic.reward_rate }
          else Except.error UnsafeArithmetic.CustomError.ArithmeticOverflow
        else Except.error UnsafeArithmetic.CustomError.ArithmeticOverflow
      else Except.error UnsafeArithmetic.CustomError.ArithmeticOverflow := by
  unfold UnsafeArithmetic.deposit_safe checked_add checked_mul
  by_cases h1 : pool.total_deposited + amount ≤ U64_MAX <;> simp [h1]
  by_cases h2 : amount * UnsafeArithmetic.reward_rate ≤ U64_MAX <;> simp [h2]
  by_cases h3 : pool.total_rewards + amount * UnsafeArithmetic.reward_rate ≤
      U64_MAX <;> simp [h3]

/-- Normal form of withdraw_safe of the unsafe_arithmetic program. -/
theorem UnsafeArithmetic.withdraw_safe_eq (pool : UnsafeArithmetic.Pool)
    (amount : Nat) :
    UnsafeArithmetic.withdraw_safe pool amount =
      if amount ≤ pool.total_available then
        Except.ok { pool with
          total_available := pool.total_available - amount }
      else Except.error UnsafeArithmetic.CustomError.ArithmeticUnderflow := by
  unfold UnsafeArithmetic.withdraw_safe checked_sub
  by_cases h : amount ≤ pool.total_available <;> simp [h]

/-- C4: the checked u64 arithmetic never wraps: a deposit of 1 on
total_deposited equal to the u64 maximum fails with ArithmeticOverflow
leaving the pool unchanged; a withdraw of more than total_available
fails with ArithmeticUnderflow leaving the pool unchanged; and every
successful deposit and withdraw keeps the totals inside the u64 range
with their exact unwrapped values. -/
theorem C4_no_wrapping (pool : UnsafeArithmetic.Pool) (amount : Nat) :
    (pool.total_deposited = U64_MAX → amount = 1 →
      UnsafeArithmetic.deposit_safe pool amount =
        Except.error UnsafeArithmetic.CustomError.ArithmeticOverflow ∧
      commit pool (UnsafeArithmetic.deposit_safe pool amount) = pool) ∧
    (pool.total_available < amount →
      UnsafeArithmetic.withdraw_safe pool amount =
        Except.error UnsafeArithmetic.CustomError.ArithmeticUnderflow ∧
      commit pool (UnsafeArithmetic.withdraw_safe pool amount) = pool) ∧
    (∀ p2, UnsafeArithmetic.deposit_safe pool amount = Except.ok p2 →
      p2.total_deposited = pool.total_deposited + amount ∧
      p2.total_deposited ≤ U64_MAX ∧
      p2.total_rewards = pool.total_rewards +
        amount * UnsafeArithmetic.reward_rate ∧
      p2.total_rewards ≤ U64_MAX) ∧
    (∀ p2, UnsafeArithmetic.withdraw_safe pool amount = Except.ok p2 →
      amount ≤ pool.total_available ∧
      p2.total_available = pool.total_available - amount) := by
  refine ⟨?_, ?_, ?_, ?_⟩
  · intro hd ha
    rw [UnsafeArithmetic.deposit_safe_eq, hd, ha, if_neg (by omega)]
    exact ⟨rfl, rfl⟩
  · intro h
    rw [UnsafeArithmetic.withdraw_safe_eq, if_neg (by omega)]
    exact ⟨rfl, rfl⟩
  · intro p2 h
    rw [UnsafeArithmetic.deposit_safe_eq] at h
    split_ifs at h with h1 h2 h3
    simp only [Except.ok.injEq] at h
    subst h
    exact ⟨rfl, h1, rfl, h3⟩
  · intro p2 h
    rw [UnsafeArithmetic.withdraw_safe_eq] at h
    split_ifs at h with h1
    simp only [Except.ok.injEq] at h
    subst h
    exact ⟨h1, rfl⟩

/-- C4 witness: on a pool whose total_deposited is the u64 maximum and
whose total_available is 0, depositing 1 fails with ArithmeticOverflow
and withdrawing 1 fails with ArithmeticUnderflow, both leaving the pool
unchanged. -/
theorem C4_no_wrapping_witness :
    (UnsafeArithmetic.deposit_safe ⟨U64_MAX, 0, 0, 0⟩ 1 =
      Except.error UnsafeArithmetic.CustomError.ArithmeticOverflow ∧
    commit ⟨U64_MAX, 0, 0, 0⟩
      (UnsafeArithmetic.deposit_safe ⟨U64_MAX, 0, 0, 0⟩ 1) =
      ⟨U64_MAX, 0, 0, 0⟩) ∧
    (UnsafeArithmetic.withdraw_safe ⟨U64_MAX, 0, 0, 0⟩ 1 =
      Except.error UnsafeArithmetic.CustomError.ArithmeticUnderflow ∧
    commit ⟨U64_MAX, 0, 0, 0⟩
      (UnsafeArithmetic.withdraw_safe ⟨U64_MAX, 0, 0, 0⟩ 1) =
      ⟨U64_MAX, 0, 0, 0⟩) :=
  ⟨(C4_no_wrapping ⟨U64_MAX, 0, 0, 0⟩ 1).1 rfl rfl,
   (C4_no_wrapping ⟨U64_MAX, 0, 0, 0⟩ 1).2.1 (by decide)⟩

/-- C8: deposit_safe of the unsafe_arithmetic program is atomic: on any
error the committed pool is completely unchanged in every field,
including when the first checked addition succeeds and only the reward
step overflows; on success both total_deposited and total_rewards carry
their exact new values and the other fields are untouched. -/
theorem C8_deposit_atomic (pool : UnsafeArithmetic.Pool) (amount : Nat) :
    (∀ e, UnsafeArithmetic.deposit_safe pool amount = Except.error e →
      commit pool (UnsafeArithmetic.deposit_safe pool amount) = pool) ∧
    (∀ p2, UnsafeArithmetic.deposit_safe pool amount = Except.ok p2 →
      p2.total_deposited = pool.total_deposited + amount ∧
      p2.total_rewards = pool.total_rewards +
        amount * UnsafeArithmetic.reward_rate ∧
      p2.total_available = pool.total_available ∧
      p2.total_minted = pool.total_minted) := by
  constructor
  · intro e he
    rw [he]
    rfl
  · intro p2 h
    rw [UnsafeArithmetic.deposit_safe_eq] at h
    split_ifs at h with h1 h2 h3
    simp only [Except.ok.injEq] at h
    subst h
    exact ⟨rfl, rfl, rfl, rfl⟩

/-- C8 witness: on a pool with total_rewards at the u64 maximum,
depositing 1 passes the first checked addition and fails only at the
reward addition, and the committed pool is unchanged. -/
theorem C8_deposit_atomic_witness :
    UnsafeArithmetic.deposit_safe ⟨0, 0, U64_MAX, 0⟩ 1 =
      Except.error UnsafeArithmetic.CustomError.ArithmeticOverflow ∧
    commit ⟨0, 0, U64_MAX, 0⟩
      (UnsafeArithmetic.deposit_safe ⟨0, 0, U64_MAX, 0⟩ 1) =
      ⟨0, 0, U64_MAX, 0⟩ :=
  ⟨by rfl,
   (C8_deposit_atomic ⟨0, 0, U64_MAX, 0⟩ 1).1
     UnsafeArithmetic.CustomError.ArithmeticOverflow (by rfl)⟩

/-- C5 counterexample: on a locked pool where the caller balance does not
cover the amount, withdraw_safe fails with InsufficientBalance, not with
PoolLocked, because the source checks balances before the lock; so a
withdraw on a locked pool does not fail with the reentrancy error for
all amounts and balances. -/
theorem C5_locked_error_counterexample :
    Reentrancy.withdraw_safe ⟨5, 5, true⟩ ⟨1, 0⟩ 1 true =
      Except.error (Reentrancy.Err.Custom
        Reentrancy.CustomError.InsufficientBalance) ∧
    (Except.error (Reentrancy.Err.Custom
        Reentrancy.CustomError.InsufficientBalance) :
      Except Reentrancy.Err (Reentrancy.PoolSafe × Reentrancy.UserDeposit)) ≠
      Except.error (Reentrancy.Err.Custom
        Reentrancy.CustomError.PoolLocked) := by
  constructor
  · rfl
  · intro h
    simp at h

/-- C5 amended: a withdraw attempted on a locked pool always fails and
leaves the committed pool and user balances unchanged; it fails with the
PoolLocked reentrancy error whenever the balance and pool-funds checks,
which the source runs first, pass. -/
theorem C5_locked_always_fails (pool : Reentrancy.PoolSafe)
    (user : Reentrancy.UserDeposit) (amount : Nat) (t : Bool)
    (h : pool.locked = true) :
    (∃ e, Reentrancy.withdraw_safe pool user amount t = Except.error e) ∧
    commit (pool, user) (Reentrancy.withdraw_safe pool user amount t) =
      (pool, user) ∧
    (amount ≤ user.balance → amount ≤ pool.total_available →
      Reentrancy.withdraw_safe pool user amount t =
        Except.error (Reentrancy.Err.Custom
          Reentrancy.CustomError.PoolLocked)) := by
  unfold Reentrancy.withdraw_safe
  rw [Reentrancy.withdraw_safe_run_eq]
  by_cases h1 : user.balance < amount
  · rw [if_pos h1]
    exact ⟨⟨_, rfl⟩, rfl, fun hb _ => absurd hb (by omega)⟩
  · rw [if_neg h1]
    by_cases h2 : pool.total_available < amount
    · rw [if_pos h2]
      exact ⟨⟨_, rfl⟩, rfl, fun _ ha => absurd ha (by omega)⟩
    · rw [if_neg h2, if_pos h]
      exact ⟨⟨_, rfl⟩, rfl, fun _ _ => rfl⟩

/-- C5 amended witness: on a locked pool with sufficient balances the
withdraw fails with PoolLocked. -/
theorem C5_locked_always_fails_witness :
    Reentrancy.withdraw_safe ⟨5, 5, true⟩ ⟨1, 5⟩ 3 true =
      Except.error (Reentrancy.Err.Custom
        Reentrancy.CustomError.PoolLocked) :=
  (C5_locked_always_fails ⟨5, 5, true⟩ ⟨1, 5⟩ 3 true rfl).2.2
    (by decide) (by decide)

/-- C6: for every withdraw on a quiescent (unlocked) pool, whatever the
outcome — success, a failed check, a failed debit, or a failure of the
delegated transfer call — the committed pool after the operation has
locked = false: the success path clears the flag explicitly and every
error path aborts the transaction, reverting to the unlocked entry
state. -/
theorem C6_lock_released (pool : Reentrancy.PoolSafe)
    (user : Reentrancy.UserDeposit) (amount : Nat) (t : Bool)
    (h : pool.locked = false) :
    (commit (pool, user)
      (Reentrancy.withdraw_safe pool user amount t)).1.locked = false := by
  unfold Reentrancy.withdraw_safe
  rw [Reentrancy.withdraw_safe_run_eq]
  split_ifs with h1 h2 h3 h4 h5
  · exact h
  · exact h
  · exact h
  · exact h
  · rfl
  · exact h

/-- C6 witness: a withdraw whose delegated transfer call fails leaves the
committed pool unlocked. -/
theorem C6_lock_released_witness :
    (commit (⟨10, 10, false⟩, ⟨1, 10⟩)
      (Reentrancy.withdraw_safe ⟨10, 10, false⟩ ⟨1, 10⟩ 5 false)).1.locked =
      false :=
  C6_lock_released ⟨10, 10, false⟩ ⟨1, 10⟩ 5 false rfl

/-- C7 counterexample: on a successful withdraw the event trace shows the
lock being set as the very first effect, before the user-balance debit
and the other balance debits, so the lock transition does not happen
after the balance mutations have been committed as the claim states. -/
theorem C7_lock_order_counterexample :
    Reentrancy.withdraw_trace ⟨100, 100, false⟩ ⟨1, 100⟩ 60 true =
      [Reentrancy.Event.set_lock, Reentrancy.Event.debit_user,
       Reentrancy.Event.debit_deposited, Reentrancy.Event.debit_available,
       Reentrancy.Event.cpi_transfer, Reentrancy.Event.clear_lock] ∧
    (Reentrancy.withdraw_trace ⟨100, 100, false⟩ ⟨1, 100⟩ 60
        true).indexOf Reentrancy.Event.set_lock <
      (Reentrancy.withdraw_trace ⟨100, 100, false⟩ ⟨1, 100⟩ 60
        true).indexOf Reentrancy.Event.debit_user ∧
    ¬ (Reentrancy.withdraw_trace ⟨100, 100, false⟩ ⟨1, 100⟩ 60
        true).indexOf Reentrancy.Event.debit_available <
      (Reentrancy.withdraw_trace ⟨100, 100, false⟩ ⟨1, 100⟩ 60
        true).indexOf Reentrancy.Event.set_lock := by
  refine ⟨rfl, by decide, by decide⟩

/-- C7 amended: the lock transition from false to true happens exactly
when all three checks pass, as the first effect — before the balance
debits, not after them — and the delegated transfer call is issued only
after the lock is set and all three debits are committed. -/
theorem C7_lock_set_first (pool : Reentrancy.PoolSafe)
    (user : Reentrancy.UserDeposit) (amount : Nat) (t : Bool) :
    (Reentrancy.Event.set_lock ∈ Reentrancy.withdraw_trace pool user amount t
      ↔ amount ≤ user.balance ∧ amount ≤ pool.total_available ∧
        pool.locked = false) ∧
    ((Reentrancy.withdraw_trace pool user amount t).head? =
        some Reentrancy.Event.set_lock ∨
      Reentrancy.withdraw_trace pool user amount t = []) ∧
    (Reentrancy.Event.cpi_transfer ∈
        Reentrancy.withdraw_trace pool user amount t →
      (Reentrancy.withdraw_trace pool user amount t).indexOf
          Reentrancy.Event.set_lock <
        (Reentrancy.withdraw_trace pool user amount t).indexOf
          Reentrancy.Event.cpi_transfer ∧
      (Reentrancy.withdraw_trace pool user amount t).indexOf
          Reentrancy.Event.debit_user <
        (Reentrancy.withdraw_trace pool user amount t).indexOf
          Reentrancy.Event.cpi_transfer ∧
      (Reentrancy.withdraw_trace pool user amount t).indexOf
          Reentrancy.Event.debit_deposited <
        (Reentrancy.withdraw_trace pool user amount t).indexOf
          Reentrancy.Event.cpi_transfer ∧
      (Reentrancy.withdraw_trace pool user amount t).indexOf
          Reentrancy.Event.debit_available <
        (Reentrancy.withdraw_trace pool user amount t).indexOf
          Reentrancy.Event.cpi_transfer) := by
  unfold Reentrancy.withdraw_trace
  rw [Reentrancy.withdraw_safe_run_eq]
  split_ifs with h1 h2 h3 h4 h5 <;>
    refine ⟨?_, ?_, ?_⟩ <;>
      simp_all

/-- C7 amended witness: on a successful withdraw the transfer CPI event
follows the lock event and all three debit events. -/
theorem C7_lock_set_first_witness :
    (Reentrancy.withdraw_trace ⟨100, 100, false⟩ ⟨1, 100⟩ 60 true).indexOf
        Reentrancy.Event.set_lock <
      (Reentrancy.withdraw_trace ⟨100, 100, false⟩ ⟨1, 100⟩ 60 true).indexOf
        Reentrancy.Event.cpi_transfer :=
  ((C7_lock_set_first ⟨100, 100, false⟩ ⟨1, 100⟩ 60 true).2.2
    (by decide)).1

/-- C10: a deposit of amount 0 through deposit_safe of the
reentrancy_risk program fails with InvalidAmount and leaves the
committed pool and user state unchanged; a deposit succeeds only when
the amount is positive. -/
theorem C10_zero_deposit_rejected (pool : Reentrancy.PoolSafe)
    (user : Reentrancy.UserDeposit) (uta : Nat) (amount : Nat) (t : Bool) :
    (amount = 0 →
      Reentrancy.deposit_safe pool user uta amount t =
        Except.error (Reentrancy.Err.Custom
          Reentrancy.CustomError.InvalidAmount) ∧
      commit (pool, user) (Reentrancy.deposit_safe pool user uta amount t) =
        (pool, user)) ∧
    (∀ r, Reentrancy.deposit_safe pool user uta amount t = Except.ok r →
      0 < amount) := by
  constructor
  · intro h
    subst h
    unfold Reentrancy.deposit_safe
    rw [if_pos (by omega)]
    exact ⟨rfl, rfl⟩
  · intro r h
    by_cases hp : 0 < amount
    · exact hp
    · exfalso
      unfold Reentrancy.deposit_safe at h
      rw [if_pos (by omega)] at h
      exact Except.noConfusion h

/-- C10 witness: a zero deposit is rejected with InvalidAmount and the
committed state is unchanged. -/
theorem C10_zero_deposit_rejected_witness :
    Reentrancy.deposit_safe ⟨10, 10, false⟩ ⟨1, 10⟩ 50 0 true =
      Except.error (Reentrancy.Err.Custom
        Reentrancy.CustomError.InvalidAmount) ∧
    commit (⟨10, 10, false⟩, ⟨1, 10⟩)
      (Reentrancy.deposit_safe ⟨10, 10, false⟩ ⟨1, 10⟩ 50 0 true) =
      (⟨10, 10, false⟩, ⟨1, 10⟩) :=
  (C10_zero_deposit_rejected ⟨10, 10, false⟩ ⟨1, 10⟩ 50 0 true).1 rfl
